import Mathlib

/-!
Shallow embedding of the interactive composition engine of the
Ai-Canvas-Composer repository (source files `src/App.tsx`,
`src/components/DraggableElement.tsx`, `src/components/CanvasEditor.tsx`,
`src/types.ts`).

Numbers: TypeScript `number` values appearing in the engine are modelled as
rationals (`ℚ`); timestamps (`Date.now()`) as `Nat` parameters.  A JavaScript
number that may be `NaN` (the result of `parseInt` on a non-numeric string)
is modelled as `Option Int` with `none` playing the role of `NaN`; the JS
operations used on such values (`*`, `Math.round`, `Math.max`, template
interpolation) all propagate `NaN`, which the model mirrors by propagating
`none`.
-/

namespace CanvasAI

/-- The `Position` pair from `src/types.ts`: an x/y pixel coordinate. -/
structure Pos where
  x : ℚ
  y : ℚ
deriving DecidableEq, Repr

/-- Element kinds, the TS union `'text' | 'logo' | 'image'` from `src/types.ts`. -/
inductive ElementType where
  | text
  | logo
  | image
deriving DecidableEq, Repr

/-- The style fields of a `DesignElement` that the engine reads or writes
(`React.CSSProperties` is open-ended; the engine only ever touches these
four fields, each optional). -/
structure TextStyle where
  color : Option String
  fontFamily : Option String
  textShadow : Option String
  fontSize : Option String
deriving DecidableEq, Repr

/-- The `DesignElement` record from `src/types.ts`. -/
structure DesignElement where
  id : String
  type : ElementType
  content : String
  x : ℚ
  y : ℚ
  width : Option ℚ
  height : Option ℚ
  style : Option TextStyle
deriving DecidableEq, Repr

/-- Does the character list `needle` occur as a prefix of `hay`?
(Helper for the JS `String.prototype.includes` model.) -/
def charsStartWith : List Char → List Char → Bool
  | [], _ => true
  | _ :: _, [] => false
  | c :: cs, d :: ds => c == d && charsStartWith cs ds

/-- Does the character list `needle` occur contiguously inside `hay`? -/
def charsContain (needle : List Char) : List Char → Bool
  | [] => needle.isEmpty
  | d :: ds => charsStartWith needle (d :: ds) || charsContain needle ds

/-- JS `hay.includes(needle)` for strings. -/
def strIncludes (hay needle : String) : Bool :=
  charsContain needle.data hay.data

/-- JS `hay.startsWith(needle)` for strings. -/
def strStartsWith (hay needle : String) : Bool :=
  charsStartWith needle.data hay.data

/-- Helper `getCoordinatesFromPosition` from `src/App.tsx` (lines 11–35): converts a
named placement region plus canvas/item dimensions into pixel coordinates.
The successive `let x := ...` shadowing bindings mirror the source's mutable
`let x`/`let y` reassignments. -/
def getCoordinatesFromPosition (pos : String) (canvasW canvasH itemW itemH : ℚ) : Pos :=
  let padding : ℚ := 50
  let x := padding
  let y := padding
  let x := if strIncludes pos "right" then canvasW - itemW - padding else x
  let x := if strIncludes pos "center" && !strStartsWith pos "center"
           then (canvasW - itemW) / 2 else x
  let xy :=
    if strStartsWith pos "center" then
      let y := (canvasH - itemH) / 2
      let x := if strIncludes pos "left" then padding else x
      let x := if strIncludes pos "right" then canvasW - itemW - padding else x
      let x := if pos = "center" then (canvasW - itemW) / 2 else x
      (x, y)
    else (x, y)
  let x := xy.1
  let y := xy.2
  let y := if strIncludes pos "bottom" then canvasH - itemH - padding else y
  let y := if strIncludes pos "top" then padding else y
  ⟨x, y⟩

/-- The engine-relevant part of the `App` component state (`src/App.tsx`
lines 54–71): the element store, the selection, the two history stacks and
the two boolean flags that the export paths toggle.  Prompts, upload caches
and canvas dimensions are passed to the handlers as parameters. -/
structure AppState where
  elements : List DesignElement
  selectedElementId : Option String
  history : List (List DesignElement)
  redoStack : List (List DesignElement)
  isDownloading : Bool
  isTransparentMode : Bool
deriving DecidableEq, Repr

/-- Handler `saveHistory` (`src/App.tsx` lines 75–78): push the current element
sequence onto the undo stack and clear the redo stack. -/
def saveHistory (s : AppState) : AppState :=
  { s with history := s.history ++ [s.elements], redoStack := [] }

/-- Handler `handleUndo` (`src/App.tsx` lines 80–87): no-op on an empty undo stack;
otherwise push the current elements onto the *front* of the redo stack, pop
the last undo entry into the current elements. -/
def handleUndo (s : AppState) : AppState :=
  match s.history.getLast? with
  | none => s
  | some previousState =>
    { s with
      redoStack := s.elements :: s.redoStack
      elements := previousState
      history := s.history.dropLast }

/-- Handler `handleRedo` (`src/App.tsx` lines 89–96): no-op on an empty redo stack;
otherwise push the current elements onto the undo stack, pop the *front* of
the redo stack into the current elements. -/
def handleRedo (s : AppState) : AppState :=
  match s.redoStack with
  | [] => s
  | nextState :: rest =>
    { s with
      history := s.history ++ [s.elements]
      elements := nextState
      redoStack := rest }

/-- Handler `handleDeleteSelected` (`src/App.tsx` lines 98–103). -/
def handleDeleteSelected (s : AppState) : AppState :=
  match s.selectedElementId with
  | none => s
  | some sel =>
    let s := saveHistory s
    { s with
      elements := s.elements.filter (fun el => el.id ≠ sel)
      selectedElementId := none }

/-- Setter `setSelectedElementId`, the raw selection setter handed to the canvas
(`onSelect` in `src/App.tsx` line 837). -/
def setSelected (s : AppState) (sel : Option String) : AppState :=
  { s with selectedElementId := sel }

/-- The `Partial<DesignElement>` updates actually passed to
`handleUpdateElement` by its callers (position/width/style edits; no caller
ever updates `id`, `type`, `content` or `height`). -/
structure ElementUpdates where
  x : Option ℚ
  y : Option ℚ
  width : Option ℚ
  style : Option TextStyle
deriving DecidableEq, Repr

/-- The object spread `{ ...el, ...updates }`: each field present in the
update replaces the element's field. -/
def applyUpdates (el : DesignElement) (u : ElementUpdates) : DesignElement :=
  { el with
    x := u.x.getD el.x
    y := u.y.getD el.y
    width := match u.width with | none => el.width | some w => some w
    style := match u.style with | none => el.style | some st => some st }

/-- Handler `handleUpdateElement` (`src/App.tsx` lines 308–315): pushes the current
element sequence onto the undo stack, clears the redo stack, then replaces
the fields of the element with the given id.  Note that this runs on *every*
call, with no batching per gesture. -/
def handleUpdateElement (s : AppState) (id : String) (u : ElementUpdates) : AppState :=
  { s with
    history := s.history ++ [s.elements]
    redoStack := []
    elements := s.elements.map (fun el => if el.id = id then applyUpdates el u else el) }

/-- Handler `handleInsertUrlImage` (`src/App.tsx` lines 155–172).  `ts` stands for
the `Date.now()` timestamp used to build the id. -/
def handleInsertUrlImage (s : AppState) (imageUrlInput : String) (dimW dimH : ℚ)
    (ts : Nat) : AppState :=
  if imageUrlInput = "" then s
  else
    let s := saveHistory s
    let newElement : DesignElement :=
      { id := "url-img-" ++ toString ts
        type := .image
        content := imageUrlInput
        x := dimW / 2 - 100
        y := dimH / 2 - 100
        width := some 200
        height := none
        style := none }
    { s with
      elements := s.elements ++ [newElement]
      selectedElementId := some newElement.id }

/-- Handler `handleGenerateAIObject` (`src/App.tsx` lines 174–206).  The external
sticker service and background-removal filter are passed in:
`stickerResult` is the awaited `generateSticker` outcome, with `none`
covering both a falsy return and a thrown error (both reach the element
store untouched, via the `else`-alert and `catch` branches respectively);
`rb` is the `removeBackground` filter. -/
def handleGenerateAIObject (s : AppState) (objectPrompt : String)
    (rb : String → String) (stickerResult : Option String)
    (dimW dimH : ℚ) (ts : Nat) : AppState :=
  if objectPrompt = "" then s
  else
    let s := saveHistory s
    match stickerResult with
    | some stickerBase64 =>
      let newElement : DesignElement :=
        { id := "ai-obj-" ++ toString ts
          type := .image
          content := rb stickerBase64
          x := dimW / 2 - 75
          y := dimH / 2 - 75
          width := some 150
          height := none
          style := none }
      { s with
        elements := s.elements ++ [newElement]
        selectedElementId := some newElement.id }
    | none => s

/-- Handler `handleGenerateTextArt` (`src/App.tsx` lines 270–306), with the external
typography-image service outcome passed in as `imageResult` (`none` again
covering both the falsy-result and thrown-error paths). -/
def handleGenerateTextArt (s : AppState) (designPrompt : String)
    (rb : String → String) (imageResult : Option String)
    (dimW dimH : ℚ) (ts : Nat) : AppState :=
  if designPrompt = "" then s
  else
    let s := saveHistory s
    match imageResult with
    | some imageBase64 =>
      let newElement : DesignElement :=
        { id := "text-art-" ++ toString ts
          type := .image
          content := rb imageBase64
          x := (dimW - 400) / 2
          y := (dimH - 200) / 2
          width := some 400
          height := none
          style := none }
      { s with
        elements := s.elements ++ [newElement]
        selectedElementId := some newElement.id }
    | none => s

/-- The `AIAnalysisResult` record from `src/types.ts` (the fields
`handleGenerateEditableDesign` consumes). -/
structure AIAnalysisResult where
  textContent : String
  textColor : String
  fontFamily : String
  textShadow : String
  suggestedTextPosition : String
  suggestedLogoPosition : String
deriving DecidableEq, Repr

/-- Handler `handleGenerateEditableDesign` (`src/App.tsx` lines 209–267), success
path, with the awaited `generateDesign` result passed in.  Mirrors the
source: it filters out elements whose id is the *literal* `'main-text'`,
pushes the generated text element (id `main-text-<timestamp>`), then pushes
a logo element if a logo was uploaded and no logo element is present. -/
def handleGenerateEditableDesign (s : AppState) (bgFilePresent : Bool)
    (designPrompt : String) (logoImage : Option String)
    (result : AIAnalysisResult) (dimW dimH : ℚ) (ts : Nat) : AppState :=
  if !bgFilePresent || designPrompt = "" then s
  else
    let s := saveHistory s
    let newElements := s.elements
    let filteredElements := newElements.filter (fun el => el.id ≠ "main-text")
    let textPos := getCoordinatesFromPosition result.suggestedTextPosition dimW dimH 300 100
    let textEl : DesignElement :=
      { id := "main-text-" ++ toString ts
        type := .text
        content := result.textContent
        x := textPos.x
        y := textPos.y
        width := none
        height := none
        style := some
          { color := some result.textColor
            fontFamily := some result.fontFamily
            textShadow := if result.textShadow = "none" then none else some result.textShadow
            fontSize := some "64px" } }
    let withText := filteredElements ++ [textEl]
    let final :=
      match logoImage with
      | some logo =>
        if withText.any (fun el => el.type == ElementType.logo) then withText
        else
          let logoPos := getCoordinatesFromPosition result.suggestedLogoPosition dimW dimH 100 100
          withText ++
            [{ id := "main-logo"
               type := .logo
               content := logo
               x := logoPos.x
               y := logoPos.y
               width := some 150
               height := none
               style := none }]
      | none => withText
    { s with elements := final }

/-- JS `parseInt(s, 10)`: skip leading whitespace, read an optional sign and
then a maximal digit run; `none` models the `NaN` returned when no digit
follows. -/
def jsParseInt (s : String) : Option Int :=
  let cs := s.data.dropWhile (fun c => c == ' ' || c == '\t' || c == '\n' || c == '\r')
  let signAndRest : Int × List Char :=
    match cs with
    | '-' :: rest => (-1, rest)
    | '+' :: rest => (1, rest)
    | _ => (1, cs)
  let ds := signAndRest.2.takeWhile Char.isDigit
  if ds.isEmpty then none
  else some (signAndRest.1 *
    (ds.foldl (fun acc c => acc * 10 + (c.toNat - '0'.toNat)) 0 : Nat))

/-- JS `Math.round`: round half toward positive infinity. -/
def jsRound (q : ℚ) : Int := ⌊q + 1 / 2⌋

/-- The starting font size read at resize start
(`src/components/DraggableElement.tsx` lines 72–74):
`parseInt(element.style?.fontSize as string || '48', 10)`.
A missing style, missing font size or empty string falls back to `'48'`;
any other string goes straight to `parseInt` (so a non-numeric string
yields `NaN`, modelled as `none`). -/
def startFontSize (style : Option TextStyle) : Option Int :=
  let str :=
    match style with
    | none => "48"
    | some st =>
      match st.fontSize with
      | none => "48"
      | some fs => if fs = "" then "48" else fs
  jsParseInt str

/-- Resize-move width for `logo`/`image` elements
(`src/components/DraggableElement.tsx` line 107):
`Math.max(20, initialResizeData.width + deltaX)`. -/
def resizeImageNewWidth (startWidth deltaX : ℚ) : ℚ :=
  max 20 (startWidth + deltaX)

/-- Resize-move font size for `text` elements
(`src/components/DraggableElement.tsx` lines 111–112):
`scaleFactor = (width + deltaX) / width`;
`Math.max(12, Math.round(fontSize * scaleFactor))`.
A `NaN` starting font size (`none`) propagates through the multiplication,
`Math.round` and `Math.max`, exactly as in JS.  Faithful for a positive
starting width (the rendered element's `offsetWidth`). -/
def resizeTextNewFontSize (fontSize : Option Int) (startWidth deltaX : ℚ) : Option Int :=
  match fontSize with
  | none => none
  | some f =>
    let scaleFactor := (startWidth + deltaX) / startWidth
    some (max 12 (jsRound ((f : ℚ) * scaleFactor)))

/-- Rendering of the committed font-size number into the style string
`` `${newFontSize}px` ``; `NaN` prints as `"NaN"`. -/
def fontSizePx (n : Option Int) : String :=
  (match n with | none => "NaN" | some v => toString v) ++ "px"

/-- The style object committed by a text resize move
(`src/components/DraggableElement.tsx` lines 113–115):
`{ ...element.style, fontSize: `${newFontSize}px` }` — the spread keeps
every other style field unchanged (spreading a missing style gives `{}`). -/
def resizeTextCommitStyle (style : Option TextStyle) (newFontSize : Option Int) : TextStyle :=
  let base := style.getD ⟨none, none, none, none⟩
  { base with fontSize := some (fontSizePx newFontSize) }

/-- The `initialResizeData` snapshot from `src/components/DraggableElement.tsx`
(lines 26–32): the width/height/pointer snapshot taken at resize start.
`fontSize` is a JS number that may be `NaN`, hence `Option Int`. -/
structure ResizeData where
  width : ℚ
  height : ℚ
  mouseX : ℚ
  mouseY : ℚ
  fontSize : Option Int
deriving DecidableEq, Repr

/-- The per-element gesture state of `DraggableElement`
(`src/components/DraggableElement.tsx` lines 22–32): the live visual
position, the two gesture flags, the drag offset and the resize snapshot. -/
structure GestureState where
  position : Pos
  isDragging : Bool
  isResizing : Bool
  dragOffset : Pos
  initialResizeData : Option ResizeData
deriving DecidableEq, Repr

/-- Handler `handleMouseDown` (`src/components/DraggableElement.tsx` lines 44–60):
rejected as a no-op while resizing; otherwise records the pointer-to-corner
offset and enters `dragging`.  (`rectLeft`/`rectTop` are the element's
current bounding-rect origin.) -/
def handleMouseDown (g : GestureState) (clientX clientY rectLeft rectTop : ℚ) :
    GestureState :=
  if g.isResizing then g
  else
    { g with
      dragOffset := ⟨clientX - rectLeft, clientY - rectTop⟩
      isDragging := true }

/-- Handler `handleResizeStart` (`src/components/DraggableElement.tsx` lines 63–83):
unconditionally enters `resizing` and snapshots the starting width, height,
pointer coordinates and (for text) parsed font size.  Note there is no
guard on `isDragging`. -/
def handleResizeStart (g : GestureState) (el : DesignElement)
    (clientX clientY offsetWidth offsetHeight : ℚ) : GestureState :=
  { g with
    isResizing := true
    initialResizeData := some
      { width := offsetWidth
        height := offsetHeight
        mouseX := clientX
        mouseY := clientY
        fontSize := if el.type == ElementType.text then startFontSize el.style else some 0 } }

/-- Handler `handleMouseUp` (`src/components/DraggableElement.tsx` lines 120–130):
leaves `dragging` (committing the live position — returned as the optional
commit) and leaves `resizing` (clearing the resize snapshot). -/
def handleMouseUp (g : GestureState) : GestureState × Option Pos :=
  let dragCommit := if g.isDragging then some g.position else none
  let g := if g.isDragging then { g with isDragging := false } else g
  let g :=
    if g.isResizing then { g with isResizing := false, initialResizeData := none }
    else g
  (g, dragCommit)

/-- One resize pointer-move on a `logo`/`image` element, as committed
through `onUpdate` = `handleUpdateElement`
(`src/components/DraggableElement.tsx` lines 105–108 feeding
`src/App.tsx` lines 308–315). -/
def resizeMoveLogoCommit (s : AppState) (id : String) (startWidth deltaX : ℚ) : AppState :=
  handleUpdateElement s id
    { x := none, y := none, width := some (resizeImageNewWidth startWidth deltaX), style := none }

/-- A whole resize gesture on a `logo`/`image` element: the starting width is
snapshotted once at gesture start, then every pointer-move commits through
`handleUpdateElement`; pointer-up commits nothing further. -/
def resizeGestureLogo (s : AppState) (id : String) (startWidth : ℚ)
    (deltas : List ℚ) : AppState :=
  deltas.foldl (fun st d => resizeMoveLogoCommit st id startWidth d) s

/-- A whole drag gesture: pointer-moves only update the element's local
visual position; the single commit through `handleUpdateElement` happens at
pointer-up (`src/components/DraggableElement.tsx` lines 120–125). -/
def dragGestureCommit (s : AppState) (id : String) (finalX finalY : ℚ) : AppState :=
  handleUpdateElement s id { x := some finalX, y := some finalY, width := none, style := none }

/-- What one capture pass sees: the element sequence rendered at capture
time, and whether the background was suppressed. -/
structure CaptureResult where
  captured : List DesignElement
  transparent : Bool
deriving DecidableEq, Repr

/-- Handler `handleDownloadSelection` (`src/App.tsx` lines 362–389) together with
the `performCapture` protocol it invokes (lines 319–340): guard on
`isDownloading`/no selection; set the downloading and transparent flags;
remember the full element list; filter the store down to the selected id;
inside `performCapture` clear the selection, capture, and restore the
remembered selection; finally restore the full element list and reset both
flags.  Returns the final state and what the capture pass saw. -/
def handleDownloadSelection (s : AppState) : AppState × Option CaptureResult :=
  if s.isDownloading || s.selectedElementId.isNone then (s, none)
  else
    match s.selectedElementId with
    | none => (s, none)
    | some sel =>
      let s1 := { s with isDownloading := true, isTransparentMode := true }
      let originalElements := s1.elements
      let s2 := { s1 with elements := s1.elements.filter (fun e => e.id == sel) }
      let previousSelection := s2.selectedElementId
      let s3 := { s2 with selectedElementId := none }
      let capture : CaptureResult := ⟨s3.elements, true⟩
      let s4 :=
        match previousSelection with
        | some p => { s3 with selectedElementId := some p }
        | none => s3
      let s5 :=
        { s4 with
          elements := originalElements
          isTransparentMode := false
          isDownloading := false }
      (s5, some capture)

/-- The selection/store consistency predicate: `selectedElementId` is either
`none` or the id of an element present in the current element sequence. -/
def selectionOK (s : AppState) : Bool :=
  match s.selectedElementId with
  | none => true
  | some id => s.elements.any (fun el => el.id == id)

/-- The nine placement region names enumerated in `src/types.ts`
(`suggestedTextPosition` / `suggestedLogoPosition`). -/
def validRegions : List String :=
  ["top-left", "top-center", "top-right", "center-left", "center",
   "center-right", "bottom-left", "bottom-center", "bottom-right"]

/-- A concrete logo element (shape of `handleLogoUpload`'s `main-logo`). -/
def sampleLogo : DesignElement :=
  ⟨"main-logo", .logo, "logo.png", 650, 30, some 100, none, none⟩

/-- A concrete generated text element (shape of `handleGenerateEditableDesign`'s
output). -/
def sampleText : DesignElement :=
  ⟨"main-text-1", .text, "HELLO", 250, 350, none, none,
    some ⟨some "#fff", some "Inter", none, some "64px"⟩⟩

/-- A concrete AI design-service result. -/
def sampleResult : AIAnalysisResult :=
  ⟨"HELLO", "#ffffff", "Inter", "none", "center", "bottom-right"⟩

/-- The initial application state: no elements, no selection, empty stacks. -/
def emptyState : AppState := ⟨[], none, [], [], false, false⟩

/-- A state holding one selected logo element and empty history stacks. -/
def logoState : AppState := ⟨[sampleLogo], some "main-logo", [], [], false, false⟩

/-- A state with one undo entry available (as after one mutation). -/
def undoReadyState : AppState := ⟨[sampleLogo], none, [[]], [], false, false⟩

/-- The gesture state a `DraggableElement` starts in: no gesture in
progress. -/
def idleGesture : GestureState := ⟨⟨0, 0⟩, false, false, ⟨0, 0⟩, none⟩

/- ------------------------------------------------------------------ -/
/- Helper lemmas                                                      -/
/- ------------------------------------------------------------------ -/

theorem coordsTopLeft (cw ch iw ih : ℚ) :
    getCoordinatesFromPosition "top-left" cw ch iw ih = ⟨50, 50⟩ := rfl

theorem coordsTopCenter (cw ch iw ih : ℚ) :
    getCoordinatesFromPosition "top-center" cw ch iw ih = ⟨(cw - iw) / 2, 50⟩ := rfl

theorem coordsTopRight (cw ch iw ih : ℚ) :
    getCoordinatesFromPosition "top-right" cw ch iw ih = ⟨cw - iw - 50, 50⟩ := rfl

theorem coordsCenterLeft (cw ch iw ih : ℚ) :
    getCoordinatesFromPosition "center-left" cw ch iw ih = ⟨50, (ch - ih) / 2⟩ := rfl

theorem coordsCenter (cw ch iw ih : ℚ) :
    getCoordinatesFromPosition "center" cw ch iw ih = ⟨(cw - iw) / 2, (ch - ih) / 2⟩ := rfl

theorem coordsCenterRight (cw ch iw ih : ℚ) :
    getCoordinatesFromPosition "center-right" cw ch iw ih =
      ⟨cw - iw - 50, (ch - ih) / 2⟩ := rfl

theorem coordsBottomLeft (cw ch iw ih : ℚ) :
    getCoordinatesFromPosition "bottom-left" cw ch iw ih = ⟨50, ch - ih - 50⟩ := rfl

theorem coordsBottomCenter (cw ch iw ih : ℚ) :
    getCoordinatesFromPosition "bottom-center" cw ch iw ih =
      ⟨(cw - iw) / 2, ch - ih - 50⟩ := rfl

theorem coordsBottomRight (cw ch iw ih : ℚ) :
    getCoordinatesFromPosition "bottom-right" cw ch iw ih =
      ⟨cw - iw - 50, ch - ih - 50⟩ := rfl

/-- Replacing one element's fields through `applyUpdates` never changes which
ids occur, so an `any`-by-id scan is unaffected. -/
theorem updateKeepsAnyId (l : List DesignElement) (id : String) (u : ElementUpdates)
    (sel : String) :
    (l.map (fun el => if el.id = id then applyUpdates el u else el)).any
        (fun el => el.id == sel) =
      l.any (fun el => el.id == sel) := by
  induction l with
  | nil => rfl
  | cons a t ih =>
    simp only [List.map_cons, List.any_cons, ih]
    by_cases ha : a.id = id
    · rw [if_pos ha]
      have hid : (applyUpdates a u).id = a.id := rfl
      rw [hid]
    · rw [if_neg ha]

/- ------------------------------------------------------------------ -/
/- Claim theorems                                                     -/
/- ------------------------------------------------------------------ -/

/-- C1: evaluation of the code at the failing input.  A resize gesture on a
logo of width 100 with two pointer-moves (deltas +10, +20) pushes TWO
history entries (one per move, since `handleUpdateElement` pushes
unconditionally and resize commits on every move), not one per gesture; a
single undo restores the state after the first move (width 110), not the
pre-gesture sequence (width 100).  A drag gesture, which commits once at
pointer-up, does push exactly one entry. -/
theorem claim_C1_code_bug_eval :
    (resizeGestureLogo logoState "main-logo" 100 [10, 20]).history.length = 2 ∧
    (resizeGestureLogo logoState "main-logo" 100 [10, 20]).history =
      [[sampleLogo], [{ sampleLogo with width := some 110 }]] ∧
    (handleUndo (resizeGestureLogo logoState "main-logo" 100 [10, 20])).elements =
      [{ sampleLogo with width := some 110 }] ∧
    (handleUndo (resizeGestureLogo logoState "main-logo" 100 [10, 20])).elements ≠
      [sampleLogo] ∧
    (dragGestureCommit logoState "main-logo" 600 40).history.length = 1 := by
  have hw1 : resizeImageNewWidth 100 10 = 110 := by norm_num [resizeImageNewWidth]
  have hw2 : resizeImageNewWidth 100 20 = 120 := by norm_num [resizeImageNewWidth]
  have hstep : resizeGestureLogo logoState "main-logo" 100 [10, 20] =
      { logoState with
        history := [[sampleLogo], [{ sampleLogo with width := some 110 }]]
        redoStack := []
        elements := [{ sampleLogo with width := some 120 }] } := by
    simp [resizeGestureLogo, resizeMoveLogoCommit, handleUpdateElement, hw1, hw2,
      applyUpdates, logoState, sampleLogo]
  rw [hstep]
  refine ⟨rfl, rfl, ?_, ?_, rfl⟩
  · simp [handleUndo]
  · simp [handleUndo]
    intro hcon
    have hwidth := congrArg DesignElement.width hcon
    norm_num [sampleLogo] at hwidth

/-- C2, counterexample: for arbitrary positive dimensions the bounding-box
bound fails.  With a 10×10 canvas and a 100×100 item, region `top-left`
yields x = 50, which does not lie in `[50, 10 − 100 − 50]` (the interval is
empty), so the claimed bound `x ≤ canvasW − itemW − padding` is violated. -/
theorem claim_C2_counterexample :
    ¬ (50 ≤ (getCoordinatesFromPosition "top-left" 10 10 100 100).x ∧
       (getCoordinatesFromPosition "top-left" 10 10 100 100).x ≤ 10 - 100 - 50) := by
  rw [coordsTopLeft]
  norm_num

/-- C2, amended: `getCoordinatesFromPosition` is a pure, deterministic
function of its arguments, and whenever the item fits with the 50px padding
on both sides (`itemDim + 2·50 ≤ canvasDim` on each axis), every one of the
nine regions places the item's bounding box within
`[padding, canvasDim − itemDim − padding]` on both axes; the `center`
regions center the box on the corresponding axis; and the two end-to-end
scenarios hold: `bottom-right` on 800×800 with a 100×100 item gives
(650, 650), `center` with a 300×100 item gives (250, 350). -/
theorem claim_C2_amended (cw ch iw ih : ℚ) (hw : iw + 2 * 50 ≤ cw)
    (hh : ih + 2 * 50 ≤ ch) :
    (∀ pos ∈ validRegions,
      50 ≤ (getCoordinatesFromPosition pos cw ch iw ih).x ∧
      (getCoordinatesFromPosition pos cw ch iw ih).x ≤ cw - iw - 50 ∧
      50 ≤ (getCoordinatesFromPosition pos cw ch iw ih).y ∧
      (getCoordinatesFromPosition pos cw ch iw ih).y ≤ ch - ih - 50) ∧
    (getCoordinatesFromPosition "top-center" cw ch iw ih).x = (cw - iw) / 2 ∧
    (getCoordinatesFromPosition "bottom-center" cw ch iw ih).x = (cw - iw) / 2 ∧
    (getCoordinatesFromPosition "center-left" cw ch iw ih).y = (ch - ih) / 2 ∧
    (getCoordinatesFromPosition "center-right" cw ch iw ih).y = (ch - ih) / 2 ∧
    (getCoordinatesFromPosition "center" cw ch iw ih).x = (cw - iw) / 2 ∧
    (getCoordinatesFromPosition "center" cw ch iw ih).y = (ch - ih) / 2 ∧
    getCoordinatesFromPosition "bottom-right" 800 800 100 100 = ⟨650, 650⟩ ∧
    getCoordinatesFromPosition "center" 800 800 300 100 = ⟨250, 350⟩ := by
  refine ⟨?_, rfl, rfl, rfl, rfl, rfl, rfl, ?_, ?_⟩
  · intro pos hmem
    fin_cases hmem <;>
      simp only [coordsTopLeft, coordsTopCenter, coordsTopRight, coordsCenterLeft,
        coordsCenter, coordsCenterRight, coordsBottomLeft, coordsBottomCenter,
        coordsBottomRight] <;>
      refine ⟨by linarith, by linarith, by linarith, by linarith⟩
  · rw [coordsBottomRight]
    simp only [Pos.mk.injEq]
    norm_num
  · rw [coordsCenter]
    simp only [Pos.mk.injEq]
    norm_num

/-- C2, witness: the amended theorem applied at the concrete instance
800×800 canvas, 100×100 item. -/
theorem claim_C2_amended_witness :
    (∀ pos ∈ validRegions,
      50 ≤ (getCoordinatesFromPosition pos 800 800 100 100).x ∧
      (getCoordinatesFromPosition pos 800 800 100 100).x ≤ 800 - 100 - 50 ∧
      50 ≤ (getCoordinatesFromPosition pos 800 800 100 100).y ∧
      (getCoordinatesFromPosition pos 800 800 100 100).y ≤ 800 - 100 - 50) ∧
    (getCoordinatesFromPosition "top-center" 800 800 100 100).x = (800 - 100) / 2 ∧
    (getCoordinatesFromPosition "bottom-center" 800 800 100 100).x = (800 - 100) / 2 ∧
    (getCoordinatesFromPosition "center-left" 800 800 100 100).y = (800 - 100) / 2 ∧
    (getCoordinatesFromPosition "center-right" 800 800 100 100).y = (800 - 100) / 2 ∧
    (getCoordinatesFromPosition "center" 800 800 100 100).x = (800 - 100) / 2 ∧
    (getCoordinatesFromPosition "center" 800 800 100 100).y = (800 - 100) / 2 ∧
    getCoordinatesFromPosition "bottom-right" 800 800 100 100 = ⟨650, 650⟩ ∧
    getCoordinatesFromPosition "center" 800 800 300 100 = ⟨250, 350⟩ :=
  claim_C2_amended 800 800 100 100 (by norm_num) (by norm_num)

/-- C3: in any state with a nonempty undo stack (which every state reached
by at least one prior mutation has, since every mutation pushes a snapshot),
undo immediately followed by redo restores exactly the element sequence from
before the undo; and redo takes its entry from the *front* of the redo stack
while pushing the current elements onto the undo stack. -/
theorem claim_C3_undo_redo_roundtrip (s : AppState) (h : s.history ≠ []) :
    (handleRedo (handleUndo s)).elements = s.elements ∧
    (∀ next rest, s.redoStack = next :: rest →
      (handleRedo s).elements = next ∧
      (handleRedo s).history = s.history ++ [s.elements] ∧
      (handleRedo s).redoStack = rest) := by
  constructor
  · obtain ⟨ys, y, hy⟩ := (List.eq_nil_or_concat s.history).resolve_left h
    simp only [handleUndo, hy, List.getLast?_concat, List.dropLast_concat]
    simp [handleRedo]
  · intro next rest hr
    simp [handleRedo, hr]

/-- C3, witness: the round-trip law applied at a concrete state with one
undo entry. -/
theorem claim_C3_witness :
    (handleRedo (handleUndo undoReadyState)).elements = undoReadyState.elements ∧
    (∀ next rest, undoReadyState.redoStack = next :: rest →
      (handleRedo undoReadyState).elements = next ∧
      (handleRedo undoReadyState).history =
        undoReadyState.history ++ [undoReadyState.elements] ∧
      (handleRedo undoReadyState).redoStack = rest) :=
  claim_C3_undo_redo_roundtrip undoReadyState (by simp [undoReadyState])

/-- C4, counterexample: the claim's parenthetical "default 48 if
absent/unparseable" fails for an unparseable font size.  With starting style
`fontSize = "abc"`, `parseInt` yields `NaN` (modelled `none`), which
propagates through the scale computation; the committed font size is
`"NaNpx"`, not the value `max(12, round(48·scale))` the claim prescribes
(which at w = 200, d = +200 would be 96). -/
theorem claim_C4_counterexample :
    startFontSize (some ⟨none, none, none, some "abc"⟩) = none ∧
    resizeTextNewFontSize (startFontSize (some ⟨none, none, none, some "abc"⟩))
      200 200 = none ∧
    fontSizePx (resizeTextNewFontSize (startFontSize (some ⟨none, none, none, some "abc"⟩))
      200 200) = "NaNpx" ∧
    resizeTextNewFontSize (startFontSize (some ⟨none, none, none, some "abc"⟩)) 200 200 ≠
      some (max 12 (jsRound ((48 : ℚ) * ((200 + 200) / 200)))) := by
  have hnone : resizeTextNewFontSize
      (startFontSize (some ⟨none, none, none, some "abc"⟩)) 200 200 = none := rfl
  refine ⟨rfl, rfl, rfl, ?_⟩
  rw [hnone]
  simp

/-- C4, amended: during a resize gesture with starting width w > 0 and
pointer delta d, a logo/image commit is `max(20, w + d)` (so 100, +50 ↦ 150
and 100, −200 ↦ 20, never below 20); a text commit is
`max(12, round(f·(w+d)/w))` whenever the starting font size parses to `f`
(absent or empty defaults to 48; an *unparseable* one yields NaN instead,
per the counterexample) — so 48 at w = 200, d = +200 ↦ 96, and a delta
driving the scale below the floor clamps to 12 — and the committed style
preserves every other style field, writing only `fontSize`. -/
theorem claim_C4_amended (w d : ℚ) (st : Option TextStyle) (f : Int)
    (hw : 0 < w) (hf : startFontSize st = some f) :
    resizeImageNewWidth w d = max 20 (w + d) ∧
    resizeImageNewWidth 100 50 = 150 ∧
    resizeImageNewWidth 100 (-200) = 20 ∧
    (∀ d2 : ℚ, 20 ≤ resizeImageNewWidth w d2) ∧
    resizeTextNewFontSize (startFontSize st) w d =
      some (max 12 (jsRound ((f : ℚ) * ((w + d) / w)))) ∧
    resizeTextNewFontSize (some 48) 200 200 = some 96 ∧
    resizeTextNewFontSize (some 48) 200 (-1000) = some 12 ∧
    (∀ (d2 : ℚ) (f2 : Int), 12 ≤ (resizeTextNewFontSize (some f2) w d2).getD 12) ∧
    (resizeTextCommitStyle st (resizeTextNewFontSize (startFontSize st) w d)).color =
      (st.getD ⟨none, none, none, none⟩).color ∧
    (resizeTextCommitStyle st (resizeTextNewFontSize (startFontSize st) w d)).fontFamily =
      (st.getD ⟨none, none, none, none⟩).fontFamily ∧
    (resizeTextCommitStyle st (resizeTextNewFontSize (startFontSize st) w d)).textShadow =
      (st.getD ⟨none, none, none, none⟩).textShadow ∧
    (resizeTextCommitStyle st (resizeTextNewFontSize (startFontSize st) w d)).fontSize =
      some (fontSizePx (resizeTextNewFontSize (startFontSize st) w d)) := by
  refine ⟨rfl, by norm_num [resizeImageNewWidth], by norm_num [resizeImageNewWidth],
    ?_, ?_, ?_, ?_, ?_, rfl, rfl, rfl, rfl⟩
  · intro d2
    exact le_max_left 20 (w + d2)
  · rw [hf]
    simp [resizeTextNewFontSize]
  · simp only [resizeTextNewFontSize, Option.some.injEq]
    norm_num [jsRound]
  · simp only [resizeTextNewFontSize, Option.some.injEq]
    norm_num [jsRound]
  · intro d2 f2
    simp only [resizeTextNewFontSize, Option.getD_some]
    exact le_max_left 12 _

/-- C4, witness: the amended theorem applied with starting width 200, delta
+200 and a style whose font size is the parseable string "48px". -/
theorem claim_C4_witness :
    resizeImageNewWidth 200 200 = max 20 (200 + 200) ∧
    resizeImageNewWidth 100 50 = 150 ∧
    resizeImageNewWidth 100 (-200) = 20 ∧
    (∀ d2 : ℚ, 20 ≤ resizeImageNewWidth 200 d2) ∧
    resizeTextNewFontSize (startFontSize (some ⟨none, none, none, some "48px"⟩)) 200 200 =
      some (max 12 (jsRound (((48 : Int) : ℚ) * ((200 + 200) / 200)))) ∧
    resizeTextNewFontSize (some 48) 200 200 = some 96 ∧
    resizeTextNewFontSize (some 48) 200 (-1000) = some 12 ∧
    (∀ (d2 : ℚ) (f2 : Int), 12 ≤ (resizeTextNewFontSize (some f2) 200 d2).getD 12) ∧
    (resizeTextCommitStyle (some ⟨none, none, none, some "48px"⟩)
      (resizeTextNewFontSize (startFontSize (some ⟨none, none, none, some "48px"⟩))
        200 200)).color =
      ((some (⟨none, none, none, some "48px"⟩ : TextStyle)).getD
        ⟨none, none, none, none⟩).color ∧
    (resizeTextCommitStyle (some ⟨none, none, none, some "48px"⟩)
      (resizeTextNewFontSize (startFontSize (some ⟨none, none, none, some "48px"⟩))
        200 200)).fontFamily =
      ((some (⟨none, none, none, some "48px"⟩ : TextStyle)).getD
        ⟨none, none, none, none⟩).fontFamily ∧
    (resizeTextCommitStyle (some ⟨none, none, none, some "48px"⟩)
      (resizeTextNewFontSize (startFontSize (some ⟨none, none, none, some "48px"⟩))
        200 200)).textShadow =
      ((some (⟨none, none, none, some "48px"⟩ : TextStyle)).getD
        ⟨none, none, none, none⟩).textShadow ∧
    (resizeTextCommitStyle (some ⟨none, none, none, some "48px"⟩)
      (resizeTextNewFontSize (startFontSize (some ⟨none, none, none, some "48px"⟩))
        200 200)).fontSize =
      some (fontSizePx (resizeTextNewFontSize
        (startFontSize (some ⟨none, none, none, some "48px"⟩)) 200 200)) :=
  claim_C4_amended 200 200 (some ⟨none, none, none, some "48px"⟩) 48 (by norm_num) rfl

/-- C5, counterexample: `getCoordinatesFromPosition` does NOT fail fast on a
region name outside the nine enumerated ones.  At the invalid region
"diagonal" it silently returns the runtime fallback (50, 50) — the very same
position it returns for the valid region "top-left" — rather than signalling
a programmer error. -/
theorem claim_C5_counterexample :
    getCoordinatesFromPosition "diagonal" 800 800 100 100 = ⟨50, 50⟩ ∧
    getCoordinatesFromPosition "diagonal" 800 800 100 100 =
      getCoordinatesFromPosition "top-left" 800 800 100 100 := ⟨rfl, rfl⟩

/-- C5, amended: `getCoordinatesFromPosition` is pure and total for *all*
region strings; an unrecognized region name that matches none of the
substring keywords silently yields the padding default (50, 50),
indistinguishable from the valid region `top-left` — there is no fail-fast
path. -/
theorem claim_C5_amended (cw ch iw ih : ℚ) :
    getCoordinatesFromPosition "diagonal" cw ch iw ih = ⟨50, 50⟩ ∧
    getCoordinatesFromPosition "diagonal" cw ch iw ih =
      getCoordinatesFromPosition "top-left" cw ch iw ih := ⟨rfl, rfl⟩

/-- C6: evaluation of the code at the failing input.  Two successive AI
editable-design generations (timestamps 1 then 2) starting from an empty
store leave BOTH generated text elements in the store: the replacement
filter removes only the literal id `'main-text'`, which no generated element
(id `main-text-<timestamp>`) ever has, contradicting the source's own
comment "Remove old main text if exists to replace it" and the claim that at
most one primary text element remains. -/
theorem claim_C6_code_bug_eval :
    ((handleGenerateEditableDesign
        (handleGenerateEditableDesign emptyState true "p" none sampleResult 800 800 1)
        true "p" none sampleResult 800 800 2).elements.map (fun el => el.id)) =
      ["main-text-1", "main-text-2"] ∧
    ((handleGenerateEditableDesign
        (handleGenerateEditableDesign emptyState true "p" none sampleResult 800 800 1)
        true "p" none sampleResult 800 800 2).elements.filter
          (fun el => el.type == ElementType.text)).length = 2 := ⟨rfl, rfl⟩

/-- C7, counterexample: undoing an insertion leaves `selectedElementId`
pointing at an element absent from the store.  Inserting a URL image into
the empty state selects the new element `url-img-7`; the following undo
restores the empty element sequence but leaves the selection untouched, so
the selected id names no element in the store. -/
theorem claim_C7_counterexample :
    (handleUndo (handleInsertUrlImage ⟨[], none, [], [], false, false⟩
        "https://a.png" 800 800 7)).selectedElementId = some "url-img-7" ∧
    selectionOK (handleUndo (handleInsertUrlImage ⟨[], none, [], [], false, false⟩
        "https://a.png" 800 800 7)) = false := ⟨rfl, rfl⟩

/-- C7, amended: insert, update, delete-selected and selection of an
existing element (or of none) all preserve the invariant that
`selectedElementId` is none or the id of a present element — but undo and
redo leave `selectedElementId` entirely untouched, which is why undoing an
insertion can leave it dangling (per the counterexample). -/
theorem claim_C7_amended (s : AppState) (url : String) (w h : ℚ) (ts : Nat)
    (id : String) (u : ElementUpdates) (hsel : selectionOK s = true) :
    selectionOK (handleInsertUrlImage s url w h ts) = true ∧
    selectionOK (handleUpdateElement s id u) = true ∧
    selectionOK (handleDeleteSelected s) = true ∧
    selectionOK (setSelected s none) = true ∧
    (∀ sel ∈ s.elements.map (fun el => el.id),
      selectionOK (setSelected s (some sel)) = true) ∧
    (handleUndo s).selectedElementId = s.selectedElementId ∧
    (handleRedo s).selectedElementId = s.selectedElementId := by
  refine ⟨?_, ?_, ?_, rfl, ?_, ?_, ?_⟩
  · by_cases hu : url = ""
    · simp only [handleInsertUrlImage, if_pos hu]
      exact hsel
    · simp [handleInsertUrlImage, hu, selectionOK, saveHistory]
  · unfold selectionOK at hsel
    cases hs : s.selectedElementId with
    | none => simp [selectionOK, handleUpdateElement, hs]
    | some sel =>
      rw [hs] at hsel
      simp only [List.any_eq_true] at hsel
      obtain ⟨el, hel, hid⟩ := hsel
      have hEq : el.id = sel := by simpa using hid
      simp [selectionOK, handleUpdateElement, hs]
      refine ⟨el, hel, ?_⟩
      by_cases hc : el.id = id
      · rw [if_pos hc]
        exact hEq
      · rw [if_neg hc]
        exact hEq
  · cases hs : s.selectedElementId with
    | none =>
      simp only [handleDeleteSelected, hs]
      exact hsel
    | some sel => simp [handleDeleteSelected, hs, selectionOK, saveHistory]
  · intro sel hmem
    simp only [List.mem_map] at hmem
    obtain ⟨el, hel, rfl⟩ := hmem
    simp only [selectionOK, setSelected, List.any_eq_true]
    exact ⟨el, hel, by simp⟩
  · rcases hl : s.history.getLast? with _ | p <;> simp [handleUndo, hl]
  · rcases hr : s.redoStack with _ | ⟨n, rest⟩ <;> simp [handleRedo, hr]

/-- C7, witness: the amended invariant-preservation theorem applied at a
concrete state holding one selected logo element. -/
theorem claim_C7_witness :
    selectionOK (handleInsertUrlImage logoState "https://a.png" 800 800 3) = true ∧
    selectionOK (handleUpdateElement logoState "main-logo" ⟨some 1, none, none, none⟩) = true ∧
    selectionOK (handleDeleteSelected logoState) = true ∧
    selectionOK (setSelected logoState none) = true ∧
    (∀ sel ∈ logoState.elements.map (fun el => el.id),
      selectionOK (setSelected logoState (some sel)) = true) ∧
    (handleUndo logoState).selectedElementId = logoState.selectedElementId ∧
    (handleRedo logoState).selectedElementId = logoState.selectedElementId :=
  claim_C7_amended logoState "https://a.png" 800 800 3 "main-logo"
    ⟨some 1, none, none, none⟩ rfl

/-- C8, counterexample: the gesture state machine CAN hold two gestures at
once.  From idle, a pointer-down enters `dragging`; a pointer-down on the
resize handle while dragging is NOT rejected — `handleResizeStart` has no
`isDragging` guard — so it enters `resizing` while `isDragging` is still
set, changing the state (not a no-op) and leaving both flags true. -/
theorem claim_C8_counterexample :
    (handleMouseDown idleGesture 5 5 0 0).isDragging = true ∧
    (handleMouseDown idleGesture 5 5 0 0).isResizing = false ∧
    (handleResizeStart (handleMouseDown idleGesture 5 5 0 0)
      sampleText 10 10 100 40).isDragging = true ∧
    (handleResizeStart (handleMouseDown idleGesture 5 5 0 0)
      sampleText 10 10 100 40).isResizing = true ∧
    handleResizeStart (handleMouseDown idleGesture 5 5 0 0) sampleText 10 10 100 40 ≠
      handleMouseDown idleGesture 5 5 0 0 := by
  refine ⟨rfl, rfl, rfl, rfl, ?_⟩
  intro hcon
  have h := congrArg GestureState.isResizing hcon
  simp [handleResizeStart, handleMouseDown, idleGesture] at h

/-- C8, amended: only one direction of the mutual-exclusion guard exists: a
drag start while resizing is rejected as a no-op (`handleMouseDown` returns
the state unchanged), but a resize start while dragging is accepted —
`handleResizeStart` unconditionally sets `isResizing`, leaving both gesture
flags set; pointer-up still returns every state to idle (both flags
cleared). -/
theorem claim_C8_amended (g g2 : GestureState) (cx cy rl rt : ℚ)
    (el : DesignElement) (ow oh : ℚ)
    (hr : g.isResizing = true) (hd : g2.isDragging = true) :
    handleMouseDown g cx cy rl rt = g ∧
    (handleResizeStart g2 el cx cy ow oh).isDragging = true ∧
    (handleResizeStart g2 el cx cy ow oh).isResizing = true ∧
    (∀ g3 : GestureState, (handleMouseUp g3).1.isDragging = false ∧
      (handleMouseUp g3).1.isResizing = false) := by
  refine ⟨?_, ?_, rfl, ?_⟩
  · simp [handleMouseDown, hr]
  · simp [handleResizeStart, hd]
  · intro g3
    rcases g3 with ⟨p, d, r, o, i⟩
    cases d <;> cases r <;> simp [handleMouseUp]

/-- C8, witness: the amended theorem applied at a concrete resizing state
and a concrete dragging state. -/
theorem claim_C8_witness :
    handleMouseDown (handleResizeStart idleGesture sampleText 10 10 100 40) 5 6 0 0 =
      handleResizeStart idleGesture sampleText 10 10 100 40 ∧
    (handleResizeStart (handleMouseDown idleGesture 1 1 0 0)
      sampleText 5 6 100 40).isDragging = true ∧
    (handleResizeStart (handleMouseDown idleGesture 1 1 0 0)
      sampleText 5 6 100 40).isResizing = true ∧
    (∀ g3 : GestureState, (handleMouseUp g3).1.isDragging = false ∧
      (handleMouseUp g3).1.isResizing = false) :=
  claim_C8_amended (handleResizeStart idleGesture sampleText 10 10 100 40)
    (handleMouseDown idleGesture 1 1 0 0) 5 6 0 0 sampleText 100 40 rfl rfl

/-- C9: the single-element isolate export (`handleDownloadSelection`)
captures exactly the elements whose id is the selected id, with a
transparent background, and finishes with the element sequence, the undo
stack and the redo stack all exactly as before — no history entry is pushed
and the redo stack is not cleared; the selection is restored as well. -/
theorem claim_C9_isolate_export (s : AppState) (sel : String)
    (hsel : s.selectedElementId = some sel) (hdl : s.isDownloading = false) :
    (handleDownloadSelection s).1.elements = s.elements ∧
    (handleDownloadSelection s).1.history = s.history ∧
    (handleDownloadSelection s).1.redoStack = s.redoStack ∧
    (handleDownloadSelection s).1.selectedElementId = some sel ∧
    (∃ cr, (handleDownloadSelection s).2 = some cr ∧
      cr.captured = s.elements.filter (fun e => e.id == sel) ∧
      cr.transparent = true ∧
      ∀ e ∈ cr.captured, e.id = sel ∧ e ∈ s.elements) := by
  have hds : handleDownloadSelection s =
      ({ s with selectedElementId := some sel, isTransparentMode := false,
                isDownloading := false },
        some ⟨s.elements.filter (fun e => e.id == sel), true⟩) := by
    simp [handleDownloadSelection, hsel, hdl]
  rw [hds]
  refine ⟨rfl, rfl, rfl, rfl, _, rfl, rfl, rfl, ?_⟩
  intro e he
  simp only [List.mem_filter] at he
  exact ⟨by simpa using he.2, he.1⟩

/-- C9, witness: the isolate-export theorem applied at a concrete state with
one selected logo element. -/
theorem claim_C9_witness :
    (handleDownloadSelection logoState).1.elements = logoState.elements ∧
    (handleDownloadSelection logoState).1.history = logoState.history ∧
    (handleDownloadSelection logoState).1.redoStack = logoState.redoStack ∧
    (handleDownloadSelection logoState).1.selectedElementId = some "main-logo" ∧
    (∃ cr, (handleDownloadSelection logoState).2 = some cr ∧
      cr.captured = logoState.elements.filter (fun e => e.id == "main-logo") ∧
      cr.transparent = true ∧
      ∀ e ∈ cr.captured, e.id = "main-logo" ∧ e ∈ logoState.elements) :=
  claim_C9_isolate_export logoState "main-logo" rfl rfl

/-- C10: a failed AI object generation and a failed text-art generation
(nonempty prompt, service returns no image or throws) leave the element
sequence unchanged, yet have pushed one snapshot equal to the pre-operation
elements onto the undo stack and cleared the redo stack; undoing that entry
leaves the elements identical — the error path consumes one undo entry and
is not atomic with respect to history. -/
theorem claim_C10_failed_generation (s : AppState) (objectPrompt designPrompt : String)
    (rb : String → String) (w h : ℚ) (ts : Nat)
    (h1 : objectPrompt ≠ "") (h2 : designPrompt ≠ "") :
    ((handleGenerateAIObject s objectPrompt rb none w h ts).elements = s.elements ∧
     (handleGenerateAIObject s objectPrompt rb none w h ts).history =
       s.history ++ [s.elements] ∧
     (handleGenerateAIObject s objectPrompt rb none w h ts).redoStack = [] ∧
     (handleUndo (handleGenerateAIObject s objectPrompt rb none w h ts)).elements =
       (handleGenerateAIObject s objectPrompt rb none w h ts).elements) ∧
    ((handleGenerateTextArt s designPrompt rb none w h ts).elements = s.elements ∧
     (handleGenerateTextArt s designPrompt rb none w h ts).history =
       s.history ++ [s.elements] ∧
     (handleGenerateTextArt s designPrompt rb none w h ts).redoStack = [] ∧
     (handleUndo (handleGenerateTextArt s designPrompt rb none w h ts)).elements =
       (handleGenerateTextArt s designPrompt rb none w h ts).elements) := by
  have hobj : handleGenerateAIObject s objectPrompt rb none w h ts =
      { s with history := s.history ++ [s.elements], redoStack := [] } := by
    simp [handleGenerateAIObject, h1, saveHistory]
  have hart : handleGenerateTextArt s designPrompt rb none w h ts =
      { s with history := s.history ++ [s.elements], redoStack := [] } := by
    simp [handleGenerateTextArt, h2, saveHistory]
  rw [hobj, hart]
  refine ⟨⟨rfl, rfl, rfl, ?_⟩, ⟨rfl, rfl, rfl, ?_⟩⟩ <;>
    simp [handleUndo, List.getLast?_concat]

/-- C10, witness: the failed-generation theorem applied at a concrete state
with nonempty prompts. -/
theorem claim_C10_witness :
    ((handleGenerateAIObject logoState "retro sun" id none 800 800 9).elements =
       logoState.elements ∧
     (handleGenerateAIObject logoState "retro sun" id none 800 800 9).history =
       logoState.history ++ [logoState.elements] ∧
     (handleGenerateAIObject logoState "retro sun" id none 800 800 9).redoStack = [] ∧
     (handleUndo (handleGenerateAIObject logoState "retro sun" id none 800 800 9)).elements =
       (handleGenerateAIObject logoState "retro sun" id none 800 800 9).elements) ∧
    ((handleGenerateTextArt logoState "neon title" id none 800 800 9).elements =
       logoState.elements ∧
     (handleGenerateTextArt logoState "neon title" id none 800 800 9).history =
       logoState.history ++ [logoState.elements] ∧
     (handleGenerateTextArt logoState "neon title" id none 800 800 9).redoStack = [] ∧
     (handleUndo (handleGenerateTextArt logoState "neon title" id none 800 800 9)).elements =
       (handleGenerateTextArt logoState "neon title" id none 800 800 9).elements) :=
  claim_C10_failed_generation logoState "retro sun" "neon title" id 800 800 9
    (by decide) (by decide)

end CanvasAI
